import Mathlib

set_option maxRecDepth 100000

/-!
Shallow embedding of the completion-extraction pipeline of
`src/ai_generator.py` (repository murzvo/ai-dashboard).

Strings are modelled as `List Char`.  Python regular-expression
searches are modelled by explicit scanning functions: each regex used by
the source has a bespoke matcher translated from its literal pattern,
with leftmost-match semantics (try every start position from the left,
first full match wins), lazy `.*?` modelled as "stop at the first
position where the rest of the pattern matches", greedy `[^>]*` modelled
by scanning to the first `>`, and `re.IGNORECASE` modelled as ASCII
case-insensitivity (all inputs in the claims are ASCII).  `re.sub` with
an empty replacement is modelled by `subAll`, which deletes all
non-overlapping matches left to right.
-/

/-- The apostrophe character (used to spell the lead-in phrase set). -/
def apos : Char := Char.ofNat 39

/-- The backtick character (used to spell code-fence delimiters). -/
def btick : Char := Char.ofNat 96

/-- ASCII fragment of Python whitespace (`\s` and `str.strip`). -/
def pyWS (c : Char) : Bool :=
  c == ' ' || c == '\t' || c == '\n' || c == '\r' || c == Char.ofNat 11 || c == Char.ofNat 12

/-- ASCII upper-casing of a single character. -/
def upperOf (c : Char) : Char :=
  if 'a' ≤ c && c ≤ 'z' then Char.ofNat (c.toNat - 32) else c

/-- ASCII lower-casing of a single character (Python `str.lower`, ASCII part). -/
def lcChar (c : Char) : Char :=
  if 'A' ≤ c && c ≤ 'Z' then Char.ofNat (c.toNat + 32) else c

/-- Python `str.lower` on a whole string (ASCII model). -/
def lclist (s : List Char) : List Char := s.map lcChar

/-- A lowercase pattern character `p` matches text character `c`
case-insensitively (Python `re.IGNORECASE`, ASCII model). -/
def ciChar (p c : Char) : Bool := p == c || upperOf p == c

/-- Case-insensitive literal-prefix test (pattern given in lowercase). -/
def ciPref : List Char → List Char → Bool
  | [], _ => true
  | _ :: _, [] => false
  | p :: ps, c :: cs => ciChar p c && ciPref ps cs

/-- Case-sensitive literal-prefix test (Python `in` / `startswith`). -/
def litPref : List Char → List Char → Bool
  | [], _ => true
  | _ :: _, [] => false
  | p :: ps, c :: cs => p == c && litPref ps cs

/-- Python `str.strip()` (ASCII whitespace model). -/
def strip (s : List Char) : List Char :=
  ((s.dropWhile pyWS).reverse.dropWhile pyWS).reverse

/-- Leftmost position where predicate `p` holds of the remaining suffix;
returns the text before the match and the suffix starting at the match.
This is the engine behind every `re.search`-style scan below. -/
def splitAtMatch (p : List Char → Bool) : List Char → Option (List Char × List Char)
  | [] => if p [] then some ([], []) else none
  | c :: rest =>
    if p (c :: rest) then some ([], c :: rest)
    else
      match splitAtMatch p rest with
      | some (pre, suf) => some (c :: pre, suf)
      | none => none

/-- Leftmost start position at which the positional matcher `f` fires;
returns the value of `f` there.  Models leftmost-match regex search where the
matcher needs to report more than a boolean. -/
def findMap {α : Type} (f : List Char → Option α) : List Char → Option α
  | [] => f []
  | c :: rest =>
    match f (c :: rest) with
    | some r => some r
    | none => findMap f rest

/-- Python `pat in s` (case-sensitive substring test). -/
def occurs (pat s : List Char) : Bool := (splitAtMatch (litPref pat) s).isSome

/-- Number of positions of `s` at which `pat` occurs. -/
def countSub (pat : List Char) : List Char → Nat
  | [] => if litPref pat [] then 1 else 0
  | c :: rest => (if litPref pat (c :: rest) then 1 else 0) + countSub pat rest

/-- Index (length of the prefix) of the leftmost occurrence of `pat` in `s`. -/
def idxOf (pat s : List Char) : Option Nat :=
  (splitAtMatch (litPref pat) s).map (fun pr => pr.1.length)

/-- `pat1` occurs and its leftmost occurrence is before the leftmost
occurrence of `pat2`. -/
def beforeIn (pat1 pat2 s : List Char) : Bool :=
  match idxOf pat1 s, idxOf pat2 s with
  | some i, some j => decide (i < j)
  | _, _ => false

/-- Python `str.split` on a newline: always returns at least one line. -/
def splitNL : List Char → List (List Char)
  | [] => [[]]
  | c :: rest =>
    if c == '\n' then [] :: splitNL rest
    else
      match splitNL rest with
      | [] => [[c]]
      | l :: ls => (c :: l) :: ls

/-- Python `'\n'.join`. -/
def joinNL : List (List Char) → List Char
  | [] => []
  | [l] => l
  | l :: ls => l ++ '\n' :: joinNL ls

/-- Length of a match of `<WORD[^>]*>` (case-insensitive, `word` in
lowercase without the `<`) at the head of `s`, if any: the literal part,
then everything up to and including the first `>`. -/
def tagLen (word : List Char) (s : List Char) : Option Nat :=
  if ciPref ('<' :: word) s then
    match ((s.drop (word.length + 1)).span (fun c => !(c == '>'))) with
    | (a, c :: _) => if c == '>' then some (word.length + 1 + a.length + 1) else none
    | (_, []) => none
  else none

/-- Length of a match of a case-insensitive literal at the head of `s`. -/
def litLen (pat : List Char) (s : List Char) : Option Nat :=
  if ciPref pat s then some pat.length else none

/-- Length of a match of `<WORD[^>]*>.*?</WORD>` (case-insensitive,
`re.DOTALL`) at the head of `s`: the opening tag, then the lazy body up
to the first closing literal. -/
def spanLen (word : List Char) (s : List Char) : Option Nat :=
  match tagLen word s with
  | none => none
  | some k =>
    match splitAtMatch (ciPref ('<' :: '/' :: (word ++ ['>']))) (s.drop k) with
    | some (pre, _) => some (k + pre.length + (word.length + 3))
    | none => none

/-- `re.sub` with empty replacement: delete all non-overlapping matches, left to
right, where `m` reports the match length at a position.  Fuel-driven;
every matcher used has matches of length at least one, and the fuel
`s.length` is enough because each step consumes at least one character. -/
def subAllAux (m : List Char → Option Nat) : Nat → List Char → List Char
  | 0, s => s
  | _ + 1, [] => []
  | fuel + 1, c :: rest =>
    match m (c :: rest) with
    | some k => subAllAux m fuel (rest.drop (k - 1))
    | none => c :: subAllAux m fuel rest

/-- `re.sub` with empty replacement at the top level. -/
def subAll (m : List Char → Option Nat) (s : List Char) : List Char :=
  subAllAux m s.length s

/-- `re.findall`: all non-overlapping matches, left to right. -/
def findAllAux (m : List Char → Option Nat) : Nat → List Char → List (List Char)
  | 0, _ => []
  | _ + 1, [] => []
  | fuel + 1, c :: rest =>
    match m (c :: rest) with
    | some k => (c :: rest).take k :: findAllAux m fuel (rest.drop (k - 1))
    | none => findAllAux m fuel rest

/-- `re.findall` at the top level. -/
def findAllMatches (m : List Char → Option Nat) (s : List Char) : List (List Char) :=
  findAllAux m s.length s

/-- Group 1 of `<head[^>]*>(.*?)</head>` when it matches at the head of `s`. -/
def headGroupAt (s : List Char) : Option (List Char) :=
  match tagLen ("head".toList) s with
  | none => none
  | some k =>
    (splitAtMatch (ciPref ("</head>".toList)) (s.drop k)).map (fun pr => pr.1)

/-- `re.search` of `<head[^>]*>(.*?)</head>` (IGNORECASE, DOTALL),
returning group 1 of the leftmost match. -/
def headGroup (s : List Char) : Option (List Char) := findMap headGroupAt s

/-- `clean_html` from `src/ai_generator.py` lines 229-254: remove the
DOCTYPE declaration, strip `html` tags, relocate `<style>` blocks found
inside `<head>...</head>` to the front while deleting the head section,
strip `body` tags, remove `meta` tags and `title` blocks, and trim. -/
def clean_html (html0 : List Char) : List Char :=
  let h1 := subAll (tagLen ("!doctype".toList)) html0
  let h2 := subAll (tagLen ("html".toList)) h1
  let h3 := subAll (litLen ("</html>".toList)) h2
  let h4 :=
    match headGroup h3 with
    | none => h3
    | some headContent =>
      let styleTags := findAllMatches (spanLen ("style".toList)) headContent
      let h := subAll (spanLen ("head".toList)) h3
      if styleTags.isEmpty then h else joinNL styleTags ++ '\n' :: h
  let h5 := subAll (tagLen ("body".toList)) h4
  let h6 := subAll (litLen ("</body>".toList)) h5
  let h7 := subAll (tagLen ("meta".toList)) h6
  let h8 := subAll (spanLen ("title".toList)) h7
  strip h8

/-- The code-fence delimiter, three backticks. -/
def ticks : List Char := [btick, btick, btick]

/-- The literal part of the Method-1 pattern: three backticks then `html`. -/
def fenceHtml : List Char := ticks ++ "html".toList

/-- The six conversational lead-in phrases of Methods 1 and 5
(lines 262 and 306 of the source), in lowercase. -/
def phrasesLead6 : List (List Char) :=
  [("here".toList ++ [apos] ++ "s".toList),
   "this widget".toList, "the widget".toList, "the design".toList,
   "this".toList, "these".toList]

/-- The four lead-in phrases of the `re.split` calls of Methods 2 and 3
(lines 272 and 280): the six-phrase set WITHOUT bare `this` / `these`. -/
def phrasesLead4 : List (List Char) :=
  [("here".toList ++ [apos] ++ "s".toList),
   "this widget".toList, "the widget".toList, "the design".toList]

/-- The alternatives of the second end-of-HTML pattern of Method 5
`\n\n(?:This|These|The|Here)` (line 307), in lowercase. -/
def phrasesB4 : List (List Char) :=
  ["this".toList, "these".toList, "the".toList, "here".toList]

/-- Some phrase in `pats` matches case-insensitively at the head of `s`. -/
def anyCIPref (pats : List (List Char)) (s : List Char) : Bool :=
  pats.any (fun p => ciPref p s)

/-- `\s*(?:phrase...)` for the six-phrase set: a run of whitespace
followed by a lead-in phrase starting here. -/
def wsThenPhrase6 : List Char → Bool
  | [] => anyCIPref phrasesLead6 []
  | c :: rest => anyCIPref phrasesLead6 (c :: rest) || (pyWS c && wsThenPhrase6 rest)

/-- The commentary-break pattern of Method 1, a blank line followed by
optional whitespace and one of the six lead-in phrases (line 262),
matches at the head of `s`. -/
def breakLead6 (s : List Char) : Bool :=
  match s with
  | '\n' :: '\n' :: rest => wsThenPhrase6 rest
  | _ => false

/-- Method 1 lead-in truncation (lines 262-264): cut the extracted text at
the leftmost commentary break, then strip. -/
def m1Trunc (content : List Char) : List Char :=
  match splitAtMatch breakLead6 content with
  | some (pre, _) => strip pre
  | none => content

/-- The `re.split` of Methods 2 and 3 over the four-phrase alternation,
component zero: the text before the leftmost occurrence of one of the four phrases
(lines 272 and 280). -/
def trunc4 (w : List Char) : List Char :=
  match splitAtMatch (anyCIPref phrasesLead4) w with
  | some (pre, _) => pre
  | none => w

/-- Positional matcher for the Method 1 regex `` ```html\s*(.*?)\s*``` ``
(line 257): fires where the literal fence-plus-tag starts and a closing
triple backtick exists later; the captured group, once stripped, is the
text between the two, stripped. -/
def fM1 (s : List Char) : Option (List Char) :=
  if ciPref fenceHtml s then
    match splitAtMatch (ciPref ticks) (s.drop 7) with
    | some (pre, _) => some (strip pre)
    | none => none
  else none

/-- Method 1 (lines 256-265): fenced `html` code block, lead-in
truncation, then `clean_html`. -/
def method1 (s : List Char) : Option (List Char) :=
  (findMap fM1 s).map (fun content => clean_html (m1Trunc content))

/-- Positional matcher for the Method 2 regex `<html[^>]*>(.*?)</html>`
(line 268): the literal `<html`, everything to the first `>`, then the
lazy body up to the first `</html>`. -/
def fM2 (s : List Char) : Option (List Char) :=
  if ciPref ("<html".toList) s then
    match ((s.drop 5).span (fun c => !(c == '>'))) with
    | (_, c :: after) =>
      if c == '>' then
        match splitAtMatch (ciPref ("</html>".toList)) after with
        | some (pre, _) => some pre
        | none => none
      else none
    | (_, []) => none
  else none

/-- Method 2 (lines 267-273): content between whole-document tags,
stripped, split at the FOUR-phrase lead-in set, stripped, cleaned. -/
def method2 (s : List Char) : Option (List Char) :=
  (findMap fM2 s).map (fun content => clean_html (strip (trunc4 (strip content))))

/-- Positional matcher for the Method 3 regex `` ```[a-z]*\s*(.*?)\s*``` ``
(line 276, no IGNORECASE): three backticks, a greedy run of lowercase
letters, and the group up to the closing triple backtick (stripped). -/
def fM3 (s : List Char) : Option (List Char) :=
  if litPref ticks s then
    match splitAtMatch (litPref ticks) ((s.drop 3).dropWhile (fun c => 'a' ≤ c && c ≤ 'z')) with
    | some (pre, _) => some (strip pre)
    | none => none
  else none

/-- Method 3 (lines 275-283): any fenced code block, four-phrase
truncation, accepted (and cleaned) only if it looks like HTML; on a
rejected gate the cascade falls through. -/
def method3 (s : List Char) : Option (List Char) :=
  (findMap fM3 s).bind (fun content =>
    let w := strip (trunc4 content)
    if w.contains '<' && (occurs ("div".toList) (lclist w) || occurs ("style".toList) (lclist w))
    then some (clean_html w) else none)

/-- `</[^>]+>` at the head of `s`: returns the matched text and the rest. -/
def closeTagFn : List Char → Option (List Char × List Char)
  | '<' :: '/' :: r =>
    (match (r.span (fun c => !(c == '>'))) with
     | (b, c :: rest) =>
       if c == '>' then (if b.isEmpty then none else some ('<' :: '/' :: (b ++ ['>']), rest))
       else none
     | (_, []) => none)
  | _ => none

/-- Leftmost suffix at which `</[^>]+>` matches: text before it and the
matched closing tag. -/
def findCloseTag : List Char → Option (List Char × List Char)
  | [] => none
  | c :: rest =>
    match closeTagFn (c :: rest) with
    | some (txt, _) => some ([], txt)
    | none =>
      match findCloseTag rest with
      | some (pre, txt) => some (c :: pre, txt)
      | none => none

/-- Positional matcher for the Method 4 regex `(<[^>]+>.*?</[^>]+>)`
(line 287): an opening-like tag, then the LAZY body up to the FIRST
closing-like tag; group 1 is the whole span. -/
def fM4 (s : List Char) : Option (List Char) :=
  match s with
  | '<' :: r1 =>
    (match (r1.span (fun c => !(c == '>'))) with
     | (a, c :: r3) =>
       if c == '>' then
         if a.isEmpty then none
         else
           match findCloseTag r3 with
           | some (mid, closetxt) => some ('<' :: (a ++ '>' :: (mid ++ closetxt)))
           | none => none
       else none
     | (_, []) => none)
  | _ => none

/-- A line both contains `<` and `>` and does not begin (after strip)
with a dash (line 295). -/
def htmlLineCond (l : List Char) : Bool :=
  l.contains '<' && l.contains '>' && !(litPref ['-'] (strip l))

/-- Index of the last qualifying line, defaulting to 0 (lines 293-296). -/
def lastHtmlIdxAux : Nat → Nat → List (List Char) → Nat
  | _, acc, [] => acc
  | i, acc, l :: rest => lastHtmlIdxAux (i + 1) (if htmlLineCond l then i else acc) rest

/-- `last_html_line` of Method 4. -/
def lastHtmlIdx (ls : List (List Char)) : Nat := lastHtmlIdxAux 0 0 ls

/-- The Method 4 line-scan truncation of the matched span (lines 289-298). -/
def m4Lines (g : List Char) : List Char :=
  let w := strip g
  let ls := splitNL w
  strip (joinNL (ls.take (lastHtmlIdx ls + 1)))

/-- Method 4 (lines 285-299): widest-span heuristic; the result is
returned directly, and in particular is NOT passed through `clean_html`. -/
def method4 (s : List Char) : Option (List Char) :=
  (findMap fM4 s).map m4Lines

/-- `\n\n(?:This|These|The|Here)` (line 307) matches at the head of `s`. -/
def breakLeadB4 (s : List Char) : Bool :=
  match s with
  | '\n' :: '\n' :: rest => anyCIPref phrasesB4 rest
  | _ => false

/-- Python `w.rstrip().endswith('>')`. -/
def lastNonWsGt (w : List Char) : Bool :=
  match w.reverse.dropWhile pyWS with
  | c :: _ => c == '>'
  | [] => false

/-- The span selected by Method 5 (lines 301-318): if the stripped text
begins with `<`, truncate at the first end-of-HTML pattern (the
six-phrase set, else a blank line followed by This/These/The/Here) and
accept only a nonempty result whose last non-whitespace character is
`>`. -/
def method5Span (s : List Char) : Option (List Char) :=
  let t := strip s
  match t with
  | '<' :: _ =>
    let w :=
      match splitAtMatch (anyCIPref phrasesLead6) t with
      | some (pre, _) => strip pre
      | none =>
        match splitAtMatch breakLeadB4 t with
        | some (pre, _) => strip pre
        | none => t
    if !w.isEmpty && lastNonWsGt w then some w else none
  | _ => none

/-- Method 5 (lines 301-319): the selected span IS passed through
`clean_html` before being returned (line 319). -/
def method5 (s : List Char) : Option (List Char) :=
  (method5Span s).map clean_html

/-- The tag-opening tokens of the Method 6 line filter (line 337). -/
def m6Tags : List (List Char) :=
  ["<div".toList, "</div".toList, "<style".toList, "</style".toList,
   "<span".toList, "<p".toList, "<h".toList]

/-- The Method 6 line scan (lines 325-340): collect lines once a `<` is
seen; keep lines with `>`, comment lines or blank lines; keep
non-HTML-looking lines only if they contain a known tag token; stop
otherwise. -/
def m6Collect : Bool → List (List Char) → List (List Char)
  | _, [] => []
  | inHtml, line :: rest =>
    if line.contains '<' then line :: m6Collect true rest
    else if inHtml then
      if line.contains '>' || litPref ("<!--".toList) (strip line) || (strip line).isEmpty then
        line :: m6Collect inHtml rest
      else if m6Tags.any (fun t => occurs t (lclist line)) then
        line :: m6Collect inHtml rest
      else []
    else m6Collect inHtml rest

/-- Method 6 (lines 321-343): the line-filter fallback, guarded by the
presence of both `<` and `>`, with `clean_html` applied to the joined
collected lines. -/
def method6 (s : List Char) : Option (List Char) :=
  if s.contains '<' && s.contains '>' then
    let collected := m6Collect false (splitNL s)
    if collected.isEmpty then none else some (clean_html (strip (joinNL collected)))
  else none

/-- Leading text of the last-resort wrapper (lines 346-350). -/
def wrapPre : List Char :=
  "\n        <div style=\"padding: 20px; font-family: system-ui;\">\n            ".toList

/-- Trailing text of the last-resort wrapper. -/
def wrapPost : List Char := "\n        </div>\n        ".toList

/-- Method 7 (lines 345-350): wrap the raw response verbatim in a padded
container, with no cleanup. -/
def lastResort (s : List Char) : List Char := wrapPre ++ s ++ wrapPost

/-- The extraction cascade of `generate_widget_html` (lines 227-350): the
seven strategies tried in order, first match wins.  Total by
construction: every branch returns a `List Char`. -/
def extract (s : List Char) : List Char :=
  match method1 s with
  | some r => r
  | none =>
    match method2 s with
    | some r => r
    | none =>
      match method3 s with
      | some r => r
      | none =>
        match method4 s with
        | some r => r
        | none =>
          match method5 s with
          | some r => r
          | none =>
            match method6 s with
            | some r => r
            | none => lastResort s

/-- No strategy 1-6 fires on `s` (so the cascade reaches Method 7). -/
def noStrategyMatches (s : List Char) : Bool :=
  (method1 s).isNone && (method2 s).isNone && (method3 s).isNone &&
  (method4 s).isNone && (method5 s).isNone && (method6 s).isNone

/-- The model-not-found test of `call_anthropic_api` (line 207): the
error text contains `404`, `not_found` or `not_found_error` (the last
test is subsumed by the second, exactly as in the source). -/
def isNotFoundErr (e : List Char) : Bool :=
  occurs ("404".toList) e || occurs ("not_found".toList) e ||
    occurs ("not_found_error".toList) e

/-- The terminal-failure message of `call_anthropic_api` (line 215),
embedding the string form of the last error (`None` when no model was
even attempted, matching `str(None)`). -/
def exhaustMsg (lastErr : Option (List Char)) : List Char :=
  "None of the available models worked. Last error: ".toList ++
    (match lastErr with
     | some e => e
     | none => "None".toList)

/-- The fixed, ordered candidate model list (lines 183-188). -/
def models_to_try : List (List Char) :=
  ["claude-3-5-haiku-20241022".toList, "claude-3-haiku-20240307".toList,
   "claude-3-5-sonnet-20240620".toList, "claude-3-sonnet-20240229".toList]

/-- The candidate loop of `call_anthropic_api` (lines 190-215): a single
pass over the model list; a success returns its response text at once; a
model-not-found error advances to the next candidate while recording the
last error; any other error propagates immediately; an exhausted list
raises the terminal failure embedding the last error.  The provider `p`
abstracts `client.messages.create` for a given model name, returning
either the response text or the string form of the raised error. -/
def tryModels (p : List Char → Except (List Char) (List Char)) :
    List (List Char) → Option (List Char) → Except (List Char) (List Char)
  | [], lastErr => Except.error (exhaustMsg lastErr)
  | m :: ms, _lastErr =>
    match p m with
    | Except.ok t => Except.ok t
    | Except.error e =>
      if isNotFoundErr e then tryModels p ms (some e) else Except.error e

/-- `call_anthropic_api` (lines 178-217) over an abstract provider. -/
def call_anthropic_api (p : List Char → Except (List Char) (List Char)) :
    Except (List Char) (List Char) :=
  tryModels p models_to_try none

/-- The fixed configuration-error fragment (lines 30-36). -/
def configErrorWidget : List Char :=
  ("\n        <div class=\"widget-error\" style=\"padding: 20px; color: #d32f2f; background: #ffebee; border-radius: 8px;\">\n            <h3>⚠️ Configuration Error</h3>\n            <p>ANTHROPIC_API_KEY is not set. Please add it to your .env file.</p>\n            <p>Get your API key from <a href=\"https://console.anthropic.com\" target=\"_blank\">console.anthropic.com</a></p>\n        </div>\n        ").toList

/-- The generation-error fragment (lines 354-360), embedding the string
form of the caught exception. -/
def generationErrorWidget (e : List Char) : List Char :=
  ("\n        <div class=\"widget-error\" style=\"padding: 20px; color: #d32f2f; background: #ffebee; border-radius: 8px;\">\n            <h3>⚠️ Generation Error</h3>\n            <p>Failed to generate widget: ").toList ++ e ++
    ("</p>\n            <p>Please check your API key and network connection.</p>\n        </div>\n        ").toList

/-- `generate_widget_html` (lines 17-360) with the data-independent parts
made explicit: `apiKey` is the configured credential (empty models both
unset and empty, the falsy cases of the source check on line 29), and `p`
abstracts the completion provider invoked with the constructed prompt
(the prompt text, lines 38-175, does not influence any claim).  The
credential check happens before any provider use; a provider error is
converted to the error widget; a response is passed to the extraction
cascade. -/
def generate_widget_html (apiKey : List Char)
    (p : List Char → Except (List Char) (List Char)) : List Char :=
  if apiKey.isEmpty then configErrorWidget
  else
    match call_anthropic_api p with
    | Except.error e => generationErrorWidget e
    | Except.ok t => extract t

/-- The designated Method 1 example of claim C7: a fenced `html` block
followed inside the fence by a blank line and conversational commentary. -/
def exampleC7 : List Char :=
  "```html\n<div>X</div>\n\nHere".toList ++ apos :: "s the widget you wanted\n```".toList

/-- The whole-document example of claim C6. -/
def exampleC6 : List Char :=
  "<!DOCTYPE html><html><head><style>.a\x7bcolor:red\x7d</style></head><body><div>hi</div></body></html>".toList

/-- A provider that fails with not-found errors for the first two
candidate models and succeeds on the third (the scenario of claim C8). -/
def pDemo : List Char → Except (List Char) (List Char) := fun m =>
  if m = "claude-3-5-haiku-20241022".toList then Except.error ("404".toList)
  else if m = "claude-3-haiku-20240307".toList then Except.error ("not_found".toList)
  else Except.ok ("third-model-response".toList)

/-- Scanning skips over a run of a character on which the positional
matcher never fires.  Shared engine lemma for the parametrised families
below. -/
theorem findMap_skip {α : Type} (f : List Char → Option α) (c : Char)
    (hf : ∀ u, f (c :: u) = none) :
    ∀ (n : Nat) (t : List Char), findMap f (List.replicate n c ++ t) = findMap f t := by
  intro n
  induction n with
  | zero => intro t; rfl
  | succ m ih =>
    intro t
    rw [List.replicate_succ, List.cons_append, findMap, hf]
    exact ih t

/-- C1 (counterexample): the claim that the cleanup pass is NOT applied
to the result of strategy 5 fails.  On `<body>hi<br>` strategies 1-4 do
not match, strategy 5 selects the span `<body>hi<br>`, yet the returned
string is the CLEANED span `hi<br>` (line 319 of the source applies
`clean_html`), which differs from the selected span. -/
theorem C1_strategy5_cleanup_counterexample :
    method1 ("<body>hi<br>".toList) = none
    ∧ method2 ("<body>hi<br>".toList) = none
    ∧ method3 ("<body>hi<br>".toList) = none
    ∧ method4 ("<body>hi<br>".toList) = none
    ∧ method5Span ("<body>hi<br>".toList) = some ("<body>hi<br>".toList)
    ∧ extract ("<body>hi<br>".toList) = "hi<br>".toList
    ∧ ¬("hi<br>".toList = "<body>hi<br>".toList) := by
  decide

/-- C1 (amended): the cleanup pass is skipped for strategy 4 only; the
strategy 5 result IS passed through cleanup.  On `x <body>hi</body> y`
strategy 4 matches and the span `<body>hi</body>` is returned verbatim,
even though cleanup would have reduced it to `hi`; on `<body>hi<br>`
strategy 5 matches and the returned value is exactly `clean_html` of the
selected span. -/
theorem C1_cleanup_asymmetry_amended :
    (findMap fM4 ("x <body>hi</body> y".toList)).isSome = true
    ∧ extract ("x <body>hi</body> y".toList) = "<body>hi</body>".toList
    ∧ clean_html ("<body>hi</body>".toList) = "hi".toList
    ∧ method5Span ("<body>hi<br>".toList) = some ("<body>hi<br>".toList)
    ∧ extract ("<body>hi<br>".toList) = clean_html ("<body>hi<br>".toList) := by
  decide

/-- C2: the extraction cascade is a total function (`extract` is defined
on every `List Char` by construction and every branch returns a string),
and on every input on which no strategy 1-6 fires, the result is the
last-resort branch: the raw text wrapped verbatim in the generic padded
container. -/
theorem C2_totality_last_resort (s : List Char)
    (h : noStrategyMatches s = true) :
    extract s = wrapPre ++ s ++ wrapPost := by
  unfold noStrategyMatches at h
  simp only [Bool.and_eq_true, Option.isNone_iff_eq_none] at h
  obtain ⟨⟨⟨⟨⟨h1, h2⟩, h3⟩, h4⟩, h5⟩, h6⟩ := h
  unfold extract
  rw [h1, h2, h3, h4, h5, h6]
  rfl

/-- C2 witness: `just some text` (no angle brackets, no fences) reaches
the last-resort branch and is wrapped verbatim. -/
theorem C2_totality_last_resort_witness :
    extract ("just some text".toList) = wrapPre ++ "just some text".toList ++ wrapPost :=
  C2_totality_last_resort ("just some text".toList) (by decide)

/-- C3: strategy precedence.  For EVERY document-tag payload `d`, an
input holding both a fenced `html` block and a whole-document tag pair
later in the text extracts the fenced content `<div>F</div>` - the
result is independent of `d`, so strategy 1 wins over strategy 2.  The
cascade order itself is structural in `extract`: each `methodN` is
consulted only in the `none` branch of its predecessor. -/
theorem C3_fenced_precedence (d : List Char) :
    extract ("```html\n<div>F</div>\n```\n<html><body>".toList ++ (d ++ "</body></html>".toList))
      = "<div>F</div>".toList := rfl

/-- C3 witness at a concrete document payload. -/
theorem C3_fenced_precedence_witness :
    extract ("```html\n<div>F</div>\n```\n<html><body>".toList ++ ("<h1>doc</h1>".toList ++ "</body></html>".toList))
      = "<div>F</div>".toList :=
  C3_fenced_precedence ("<h1>doc</h1>".toList)

/-- C4 (counterexample): the claim that the strategy 4 span runs through
the LAST closing tag fails.  On `<div>a</div> and <p>b</p>` (which
reaches strategy 4), the regex span is `<div>a</div>` - the lazy `.*?`
stops at the FIRST closing tag - and the returned string does not reach
the final `</p>`. -/
theorem C4_greedy_span_counterexample :
    findMap fM4 ("<div>a</div> and <p>b</p>".toList) = some ("<div>a</div>".toList)
    ∧ extract ("<div>a</div> and <p>b</p>".toList) = "<div>a</div>".toList
    ∧ occurs ("</p>".toList) (extract ("<div>a</div> and <p>b</p>".toList)) = false := by
  decide

/-- C4 (amended): the strategy 4 span runs from the first opening-like
tag through the FIRST closing-tag token (a lazy match), then the
line-scan truncation is applied.  For every length of filler between the
two tag pairs the result is the first pair alone. -/
theorem C4_lazy_span_amended (n : Nat) :
    extract ("<div>a</div> ".toList ++ (List.replicate n 'x' ++ " and <p>b</p>".toList))
      = "<div>a</div>".toList := by
  have k1 : findMap fM1 ("<div>a</div> ".toList ++ (List.replicate n 'x' ++ " and <p>b</p>".toList)) = none := by
    have step : findMap fM1 ("<div>a</div> ".toList ++ (List.replicate n 'x' ++ " and <p>b</p>".toList))
        = findMap fM1 (List.replicate n 'x' ++ " and <p>b</p>".toList) := rfl
    rw [step, findMap_skip fM1 'x' (fun u => rfl) n (" and <p>b</p>".toList)]
    decide
  have k2 : findMap fM2 ("<div>a</div> ".toList ++ (List.replicate n 'x' ++ " and <p>b</p>".toList)) = none := by
    have step : findMap fM2 ("<div>a</div> ".toList ++ (List.replicate n 'x' ++ " and <p>b</p>".toList))
        = findMap fM2 (List.replicate n 'x' ++ " and <p>b</p>".toList) := rfl
    rw [step, findMap_skip fM2 'x' (fun u => rfl) n (" and <p>b</p>".toList)]
    decide
  have k3 : findMap fM3 ("<div>a</div> ".toList ++ (List.replicate n 'x' ++ " and <p>b</p>".toList)) = none := by
    have step : findMap fM3 ("<div>a</div> ".toList ++ (List.replicate n 'x' ++ " and <p>b</p>".toList))
        = findMap fM3 (List.replicate n 'x' ++ " and <p>b</p>".toList) := rfl
    rw [step, findMap_skip fM3 'x' (fun u => rfl) n (" and <p>b</p>".toList)]
    decide
  have k4 : findMap fM4 ("<div>a</div> ".toList ++ (List.replicate n 'x' ++ " and <p>b</p>".toList))
      = some ("<div>a</div>".toList) := rfl
  unfold extract method1 method2 method3 method4
  rw [k1, k2, k3, k4]
  rfl

/-- C4 amended-claim witness at filler length three. -/
theorem C4_lazy_span_amended_witness :
    extract ("<div>a</div> ".toList ++ (List.replicate 3 'x' ++ " and <p>b</p>".toList))
      = "<div>a</div>".toList :=
  C4_lazy_span_amended 3

/-- C5 (counterexample): the claim that strategy 2 truncates at the SAME
six-phrase lead-in set as strategy 1 fails: on an input handled by
strategy 2 whose content holds a bare `These`, no truncation happens -
the source (line 272) splits only on the four phrases and omits the bare
`This` and `These` alternatives. -/
theorem C5_phrase_set_counterexample :
    extract ("<html><div>a</div> These b</html>".toList) = "<div>a</div> These b".toList
    ∧ occurs ("These".toList) (extract ("<html><div>a</div> These b</html>".toList)) = true := by
  decide

/-- C5 (amended): strategy 2 truncates the stripped document content at
the first unanchored, case-insensitive occurrence of one of the FOUR
phrases of the split on line 272 (the six-phrase set of strategy 1 minus
bare `This` and `These`): in general the strategy 2 result is exactly
`clean_html` of the stripped four-phrase-truncated content, and
concretely `the DESIGN` and `This widget` do truncate while a bare
`These` does not. -/
theorem C5_strategy2_phrases_amended (s content : List Char)
    (h0 : findMap fM1 s = none)
    (h1 : findMap fM2 s = some content) :
    extract s = clean_html (strip (trunc4 (strip content)))
    ∧ extract ("<html><div>a</div> the DESIGN is nice</html>".toList) = "<div>a</div>".toList
    ∧ extract ("<html><div>b</div> This widget shows data</html>".toList) = "<div>b</div>".toList
    ∧ extract ("<html><div>a</div> These b</html>".toList) = "<div>a</div> These b".toList := by
  refine ⟨?_, by decide, by decide, by decide⟩
  unfold extract method1 method2
  rw [h0, h1]
  rfl

/-- C5 amended-claim witness at the `the DESIGN` input. -/
theorem C5_strategy2_phrases_amended_witness :
    extract ("<html><div>a</div> the DESIGN is nice</html>".toList)
      = clean_html (strip (trunc4 (strip ("<div>a</div> the DESIGN is nice".toList)))) :=
  (C5_strategy2_phrases_amended ("<html><div>a</div> the DESIGN is nice</html>".toList)
    ("<div>a</div> the DESIGN is nice".toList) (by decide) (by decide)).1

/-- C6: cleanup postcondition on the whole-document input of the claim.
The result keeps the style-block content exactly once, keeps
`<div>hi</div>`, holds none of the document-wrapper tokens, and the
relocated style block precedes the remaining body content. -/
theorem C6_cleanup_postcondition :
    extract exampleC6 = "<style>.a\x7bcolor:red\x7d</style>\n<div>hi</div>".toList
    ∧ countSub (".a\x7bcolor:red\x7d".toList) (extract exampleC6) = 1
    ∧ occurs ("<div>hi</div>".toList) (extract exampleC6) = true
    ∧ occurs ("<!DOCTYPE".toList) (extract exampleC6) = false
    ∧ occurs ("<html".toList) (extract exampleC6) = false
    ∧ occurs ("<head".toList) (extract exampleC6) = false
    ∧ occurs ("<body".toList) (extract exampleC6) = false
    ∧ beforeIn ("<style>".toList) ("<div>hi</div>".toList) (extract exampleC6) = true := by
  decide

/-- C7: strategy 1 lead-in truncation.  In general, whenever the fenced
`html` block matches with content `content` and the commentary-break
pattern (blank line then lead-in phrase) first matches after prefix
`pre`, the returned value is the cleaned, stripped `pre` - the content
is cut immediately before the break.  Concretely, on the designated
example the result is `<div>X</div>` and the commentary is gone. -/
theorem C7_leadin_truncation (s content pre suf : List Char)
    (h1 : findMap fM1 s = some content)
    (h2 : splitAtMatch breakLead6 content = some (pre, suf)) :
    extract s = clean_html (strip pre)
    ∧ extract exampleC7 = "<div>X</div>".toList
    ∧ occurs ("Here".toList ++ apos :: "s the widget".toList) (extract exampleC7) = false := by
  refine ⟨?_, by decide, by decide⟩
  unfold extract method1
  rw [h1]
  simp only [Option.map_some']
  unfold m1Trunc
  rw [h2]

/-- C7 witness at the designated example. -/
theorem C7_leadin_truncation_witness :
    extract exampleC7 = clean_html (strip ("<div>X</div>".toList)) :=
  (C7_leadin_truncation exampleC7
    ("<div>X</div>\n\nHere".toList ++ apos :: "s the widget you wanted".toList)
    ("<div>X</div>".toList)
    ("\n\nHere".toList ++ apos :: "s the widget you wanted".toList)
    (by decide) (by decide)).1

/-- C8: model-fallback policy of `call_anthropic_api`.  A first-model
success is returned unmodified; a non-not-found error on the first model
propagates immediately; two not-found failures followed by a success on
the third candidate return the third response unmodified; a not-found
failure followed by a non-not-found error re-raises that error; four
not-found failures exhaust the fixed candidate list and raise the
terminal failure embedding the last error. -/
theorem C8_model_fallback :
    (∀ p t, p ("claude-3-5-haiku-20241022".toList) = Except.ok t →
      call_anthropic_api p = Except.ok t)
    ∧ (∀ p e, p ("claude-3-5-haiku-20241022".toList) = Except.error e →
        isNotFoundErr e = false → call_anthropic_api p = Except.error e)
    ∧ (∀ p e1 e2 t,
        p ("claude-3-5-haiku-20241022".toList) = Except.error e1 → isNotFoundErr e1 = true →
        p ("claude-3-haiku-20240307".toList) = Except.error e2 → isNotFoundErr e2 = true →
        p ("claude-3-5-sonnet-20240620".toList) = Except.ok t →
        call_anthropic_api p = Except.ok t)
    ∧ (∀ p e1 e2,
        p ("claude-3-5-haiku-20241022".toList) = Except.error e1 → isNotFoundErr e1 = true →
        p ("claude-3-haiku-20240307".toList) = Except.error e2 → isNotFoundErr e2 = false →
        call_anthropic_api p = Except.error e2)
    ∧ (∀ p e1 e2 e3 e4,
        p ("claude-3-5-haiku-20241022".toList) = Except.error e1 → isNotFoundErr e1 = true →
        p ("claude-3-haiku-20240307".toList) = Except.error e2 → isNotFoundErr e2 = true →
        p ("claude-3-5-sonnet-20240620".toList) = Except.error e3 → isNotFoundErr e3 = true →
        p ("claude-3-sonnet-20240229".toList) = Except.error e4 → isNotFoundErr e4 = true →
        call_anthropic_api p = Except.error (exhaustMsg (some e4))) := by
  refine ⟨?_, ?_, ?_, ?_, ?_⟩
  · intro p t h1
    simp only [call_anthropic_api, models_to_try, tryModels, h1]
  · intro p e h1 hn
    simp only [call_anthropic_api, models_to_try, tryModels, h1, hn, Bool.false_eq_true, if_false]
  · intro p e1 e2 t h1 hn1 h2 hn2 h3
    simp only [call_anthropic_api, models_to_try, tryModels, h1, hn1, h2, hn2, h3, if_true]
  · intro p e1 e2 h1 hn1 h2 hn2
    simp only [call_anthropic_api, models_to_try, tryModels, h1, hn1, h2, hn2,
      Bool.false_eq_true, if_true, if_false]
  · intro p e1 e2 e3 e4 h1 hn1 h2 hn2 h3 hn3 h4 hn4
    simp only [call_anthropic_api, models_to_try, tryModels, h1, hn1, h2, hn2, h3, hn3, h4, hn4,
      if_true]

/-- C8 witness: the simulated provider failing not-found on the first
two candidates and succeeding on the third yields the third response. -/
theorem C8_model_fallback_witness :
    call_anthropic_api pDemo = Except.ok ("third-model-response".toList) :=
  C8_model_fallback.2.2.1 pDemo ("404".toList) ("not_found".toList)
    ("third-model-response".toList) rfl (by decide) rfl (by decide) rfl

/-- C9: configuration-absent short-circuit.  With an empty or unset
credential the function returns the fixed configuration-error fragment,
that fragment holds the `Configuration Error` marker, and the result is
independent of the provider - no provider invocation influences it. -/
theorem C9_config_short_circuit (k : List Char)
    (p : List Char → Except (List Char) (List Char))
    (hk : k.isEmpty = true) :
    generate_widget_html k p = configErrorWidget
    ∧ occurs ("Configuration Error".toList) (generate_widget_html k p) = true
    ∧ ∀ q, generate_widget_html k p = generate_widget_html k q := by
  have h1 : generate_widget_html k p = configErrorWidget := by
    unfold generate_widget_html
    rw [hk]
    rfl
  refine ⟨h1, ?_, ?_⟩
  · rw [h1]; decide
  · intro q
    have h2 : generate_widget_html k q = configErrorWidget := by
      unfold generate_widget_html
      rw [hk]
      rfl
    rw [h1, h2]

/-- C9 witness: empty credential with two different providers. -/
theorem C9_config_short_circuit_witness :
    generate_widget_html [] (fun _ => Except.ok ("<div>w</div>".toList)) = configErrorWidget
    ∧ generate_widget_html [] (fun _ => Except.ok ("<div>w</div>".toList))
        = generate_widget_html [] (fun _ => Except.error ("boom".toList)) :=
  ⟨(C9_config_short_circuit [] (fun _ => Except.ok ("<div>w</div>".toList)) rfl).1,
   (C9_config_short_circuit [] (fun _ => Except.ok ("<div>w</div>".toList)) rfl).2.2
     (fun _ => Except.error ("boom".toList))⟩

/-- C10: an input that is exactly an `html`-tagged fence with empty or
whitespace-only content matches strategy 1 and the function returns the
empty string - the total-function contract admits the empty fragment. -/
theorem C10_empty_fence :
    (findMap fM1 ("```html\n```".toList)).isSome = true
    ∧ extract ("```html\n```".toList) = []
    ∧ extract ("```html\n   \n```".toList) = [] := by
  decide
